/-
Verification of the SkyPulse matching-and-prediction engine against its
specification.

The development shallowly embeds the two core components of the repository:

* `skypulse-email/matching/matcher.py` — the deal-to-subscription scoring
  algorithm (`DealMatcher._calculate_match_score`, `_match_location`,
  `_match_dates`, `match_deal_to_subscriptions`).
* `skypulse-price/price_intelligence.py` — the price-history analytics
  engine (`PriceIntelligence.add_price`, `_check_alerts`, `_get_season`,
  `analyze_seasonal_patterns`, `get_seasonal_recommendation`, `get_trend`,
  `predict_price`, `should_buy`, `get_route_statistics`).

Conventions of the embedding:

* Python floats are modelled by `ℚ`; the decimal literals of the source
  (0.5, 0.2, 0.9, …) are written as exact fractions.
* Python `datetime` values are modelled by a pair of a point on the time
  line (`t`, measured in days, used for ordering and for
  `timedelta(days := n)` arithmetic) and the calendar `month` that the
  datetime exposes (`date.month`), which is what `_get_season` reads.
* Python dictionaries keyed by route are modelled as functions
  `String → Option _`; a key absent from the dictionary maps to `none`.
* Nullable columns of the SQLAlchemy schema (`models/schemas.py`) become
  `Option` fields; `Deal.price` is declared `nullable := False` there and is
  therefore a plain `ℚ`.  Python truthiness tests (`if subscription.destination:`)
  are modelled by `strTruthy` / `ratTruthy`: `None`, the empty string and `0`
  are falsy.
* Fallible Python arithmetic is embedded in `Except String`: a division
  raises `ZeroDivisionError` when the divisor is zero, exactly as in Python.
  Code paths that cannot raise stay pure.
* f-string results whose text merely interpolates computed numbers are
  modelled as inductive reasons carrying those numbers; the surrounding
  prose is irrelevant to every property proved here.
* `datetime.now()` is passed explicitly as a `now` argument to the
  operations that read the clock.
* The sample standard deviation used by `_calculate_volatility` needs a
  square root, which ℚ lacks; the development is parametrised by an
  arbitrary square-root interpretation `sq : ℚ → ℚ` applied to the sample
  variance, and every theorem about volatility holds for all such
  interpretations.
* The external LLM summary (`_generate_ai_summary`) is an out-of-process
  oracle; a `DealMatch` here records the subscription and the score, the
  two fields the specification's claims are about.
-/
import Mathlib

namespace SkyPulse

/-! ## Data model: matcher (`models/schemas.py`, fields read by the matcher) -/

/-- The `Deal` row, restricted to the columns `_calculate_match_score` and
`match_deal_to_subscriptions` read.  `price` is `nullable=False` in the
schema, the four string columns are nullable. -/
structure Deal where
  arrival_city : Option String
  departure_city : Option String
  departure_date : Option String
  price : ℚ
deriving Repr, DecidableEq

/-- The `Subscription` row, restricted to the columns the matcher reads. -/
structure Subscription where
  destination : Option String
  origin : Option String
  max_price : Option ℚ
  start_date : Option String
  end_date : Option String
  is_active : Bool
deriving Repr, DecidableEq

/-- A created `DealMatch`, keeping the fields the spec's claims mention
(the AI summary comes from the external oracle and is elided). -/
structure DealMatch where
  subscription : Subscription
  match_score : ℚ
deriving Repr, DecidableEq

/-- Python truthiness of an optional string: `None` and `""` are falsy. -/
def strTruthy : Option String → Bool
  | none => false
  | some s => !(s == "")

/-- Python truthiness of an optional float: `None` and `0` are falsy. -/
def ratTruthy : Option ℚ → Bool
  | none => false
  | some x => !(x == 0)

/-- Character-list prefix test. -/
def listPre : List Char → List Char → Bool
  | [], _ => true
  | _ :: _, [] => false
  | x :: xs, y :: ys => x == y && listPre xs ys

/-- Character-list substring test: `needle` occurs contiguously in the
haystack. -/
def listSub : List Char → List Char → Bool
  | needle, [] => needle.isEmpty
  | needle, c :: rest => listPre needle (c :: rest) || listSub needle rest

/-- Python `a in b` on strings: substring containment. -/
def strIn (a b : String) : Bool := listSub a.data b.data

/-- Python division, which raises `ZeroDivisionError` on a zero divisor. -/
def pydiv (a b : ℚ) : Except String ℚ :=
  if b = 0 then .error "ZeroDivisionError" else .ok (a / b)

/-! ## `DealMatcher._match_location` -/

/-- The hard-coded alias table of `_match_location`. -/
def variations : List (String × List String) :=
  [("nyc", ["new york", "new york city"]),
   ("la", ["los angeles"]),
   ("sf", ["san francisco"]),
   ("paris", ["cdg", "orly"]),
   ("london", ["lhr", "lgw", "ltn"]),
   ("tokyo", ["nrt", "hnd"])]

/-- Embedding of `DealMatcher._match_location`: similarity of two location strings in
[0, 1].  Falsy input (None or empty) scores 0. -/
def match_location (location1 location2 : Option String) : ℚ :=
  if !strTruthy location1 || !strTruthy location2 then 0
  else
    let loc1 := ((location1.getD "").toLower.trim)
    let loc2 := ((location2.getD "").toLower.trim)
    if loc1 == loc2 then 1
    else if strIn loc1 loc2 || strIn loc2 loc1 then 9/10
    else if variations.any (fun kv =>
        (loc1 == kv.1 && kv.2.contains loc2) || (loc2 == kv.1 && kv.2.contains loc1)) then
      95/100
    else 0

/-! ## `DealMatcher._match_dates` -/

/-- The month tokens of `_match_dates`. -/
def monthTokens : List String :=
  ["jan", "feb", "mar", "apr", "may", "jun",
   "jul", "aug", "sep", "oct", "nov", "dec"]

/-- Embedding of `DealMatcher._match_dates`: date affinity in [0, 1].  Falsy deal date →
0.5; no subscription bound → 0.5; shared month token with either bound →
1.0; otherwise 0.3. -/
def match_dates (deal_date sub_start sub_end : Option String) : ℚ :=
  if !strTruthy deal_date then 1/2
  else if !strTruthy sub_start && !strTruthy sub_end then 1/2
  else
    let dl := (deal_date.getD "").toLower
    if strTruthy sub_start &&
        monthTokens.any (fun m => strIn m dl && strIn m ((sub_start.getD "").toLower)) then 1
    else if strTruthy sub_end &&
        monthTokens.any (fun m => strIn m dl && strIn m ((sub_end.getD "").toLower)) then 1
    else 3/10

/-! ## `DealMatcher._calculate_match_score`

The Python body is a sequence of four independent `score += …` blocks
followed by `min(score, 100)`; each block is transcribed as one component
function, embedded in `Except` at the source's division sites. -/

/-- Destination block (weight 40): flat 20 when no destination is set. -/
def destPart (arrival_city destination : Option String) : ℚ :=
  if strTruthy destination then match_location arrival_city destination * 40
  else 20

/-- Price block (weight 30).  `deal.price / subscription.max_price` and the
overage computation are Python divisions; the truthiness guard on
`max_price` is what keeps the divisor nonzero. -/
def pricePart (price : ℚ) (max_price : Option ℚ) : Except String ℚ := do
  if ratTruthy max_price then
    let m := max_price.getD 0
    if price ≤ m then
      let price_ratio ← pydiv price m
      pure ((1 - price_ratio * (1/2)) * 30)
    else
      let overage ← pydiv (price - m) m
      if overage < 2/10 then
        pure (15 * (1 - overage / (2/10)))
      else
        pure 0
  else
    pure 15

/-- Date block (weight 20): flat 10 when neither bound is set. -/
def datePart (departure_date start_date end_date : Option String) : ℚ :=
  if strTruthy start_date || strTruthy end_date then
    match_dates departure_date start_date end_date * 20
  else 10

/-- Origin block (weight 10): flat 5 when no origin is set. -/
def originPart (departure_city origin : Option String) : ℚ :=
  if strTruthy origin then match_location departure_city origin * 10
  else 5

/-- Embedding of `DealMatcher._calculate_match_score`: sum of the four blocks, capped at
100. -/
def calculate_match_score (deal : Deal) (sub : Subscription) : Except String ℚ := do
  let s1 := destPart deal.arrival_city sub.destination
  let s2 ← pricePart deal.price sub.max_price
  let s3 := datePart deal.departure_date sub.start_date sub.end_date
  let s4 := originPart deal.departure_city sub.origin
  pure (min (s1 + s2 + s3 + s4) 100)

/-! ## `DealMatcher.match_deal_to_subscriptions` -/

/-- The scoring loop of `match_deal_to_subscriptions` over the active
subscriptions: score each, keep those with score ≥ 50, in order.  An
exception from scoring aborts the whole batch, as in the source, where the
loop has no handler. -/
def matchLoop (deal : Deal) : List Subscription → Except String (List DealMatch)
  | [] => .ok []
  | sub :: rest => do
      let score ← calculate_match_score deal sub
      let ms ← matchLoop deal rest
      if 50 ≤ score then
        pure (⟨sub, score⟩ :: ms)
      else
        pure ms

/-- Embedding of `DealMatcher.match_deal_to_subscriptions`: filter to the active
subscriptions (the DB query), then run the scoring loop. -/
def match_deal_to_subscriptions (deal : Deal) (subscriptions : List Subscription) :
    Except String (List DealMatch) :=
  matchLoop deal (subscriptions.filter (·.is_active))

/-! ## Price intelligence (`skypulse-price/price_intelligence.py`) -/

/-- The `Recommendation` enum. -/
inductive Recommendation
  | BUY_NOW
  | WAIT
  | NEUTRAL
deriving Repr, DecidableEq

/-- The `Season` enum. -/
inductive Season
  | WINTER
  | SPRING
  | SUMMER
  | AUTUMN
  | HOLIDAY
  | OFF_PEAK
deriving Repr, DecidableEq

/-- A Python `datetime`: a point `t` on the time line (in days, the unit of
`timedelta(days=…)`) together with the calendar `month` the datetime
exposes, which is the only calendar field the engine reads. -/
structure DateTime where
  t : ℚ
  month : Nat
deriving Repr, DecidableEq

/-- The `PricePoint` dataclass. -/
structure PricePoint where
  date : DateTime
  price : ℚ
  currency : String := "EUR"
deriving Repr, DecidableEq

/-- The `PricePrediction` dataclass. -/
structure PricePrediction where
  current_price : ℚ
  predicted_low : ℚ
  predicted_high : ℚ
  recommendation : Recommendation
  confidence : ℚ
  reasoning : String
deriving Repr, DecidableEq

/-- The `SeasonalPattern` dataclass. -/
structure SeasonalPattern where
  season : Season
  average_price : ℚ
  min_price : ℚ
  max_price : ℚ
  price_volatility : ℚ
  sample_count : Nat
deriving Repr, DecidableEq

/-- The `PriceAlert` dataclass. -/
structure PriceAlert where
  route : String
  target_price : ℚ
  created_at : DateTime
  triggered : Bool := false
deriving Repr, DecidableEq

/-- The mutable state of a `PriceIntelligence` object: the three
route-keyed dictionaries.  A route absent from a dictionary maps to
`none`. -/
structure PIState where
  price_history : String → Option (List PricePoint)
  alerts : String → Option (List PriceAlert)
  seasonal_patterns : String → Option (Season → Option SeasonalPattern)

/-- The freshly constructed engine: all three dictionaries empty. -/
def PIState.init : PIState := ⟨fun _ => none, fun _ => none, fun _ => none⟩

/-- The constant `self.min_history_for_prediction`, set in `__init__`. -/
def min_history_for_prediction : Nat := 5

/-- Embedding of `PriceIntelligence._check_alerts`: flip every pending alert of the
route whose target is reached by `current_price`. -/
def check_alerts (s : PIState) (route : String) (current_price : ℚ) : PIState :=
  match s.alerts route with
  | none => s
  | some al =>
      let updated := al.map (fun a =>
        if !a.triggered && decide (current_price ≤ a.target_price) then
          { a with triggered := true }
        else a)
      { s with alerts := Function.update s.alerts route (some updated) }

/-- Embedding of `PriceIntelligence.add_price`: append a `PricePoint` (timestamp
defaults to `now`), prune the route's history to the points strictly newer
than `now − 365` days, then check the route's alerts against the raw
`price` argument. -/
def add_price (s : PIState) (route : String) (price : ℚ)
    (date : Option DateTime) (now : DateTime) : PIState :=
  let hist := (s.price_history route).getD []
  let point : PricePoint := { date := date.getD now, price := price }
  let cutoff : ℚ := now.t - 365
  let pruned := (hist ++ [point]).filter (fun p => decide (cutoff < p.date.t))
  let s1 := { s with price_history := Function.update s.price_history route (some pruned) }
  check_alerts s1 route price

/-- Embedding of `PriceIntelligence.create_alert`: append a fresh pending alert for the
route and return it. -/
def create_alert (s : PIState) (route : String) (target_price : ℚ) (now : DateTime) :
    PIState × PriceAlert :=
  let al := (s.alerts route).getD []
  let alert : PriceAlert := { route := route, target_price := target_price, created_at := now }
  ({ s with alerts := Function.update s.alerts route (some (al ++ [alert])) }, alert)

/-- Embedding of `PriceIntelligence._get_season`, including the unreachable
`month in [12]` branch of the source (month 12 is already classified
Holiday above it). -/
def get_season (date : DateTime) : Season :=
  let month := date.month
  if month = 12 || month = 1 then .HOLIDAY
  else if month = 7 || month = 8 then .SUMMER
  else if month = 3 || month = 4 || month = 5 then .SPRING
  else if month = 9 || month = 10 || month = 11 then .AUTUMN
  else if month = 12 then .WINTER
  else if month = 1 || month = 2 then .WINTER
  else .OFF_PEAK

/-- Embedding of `statistics.mean`; every call site guards against an empty list. -/
def mean (l : List ℚ) : ℚ := l.sum / l.length

/-- Python `min` over a list; every call site guards against emptiness. -/
def listMin : List ℚ → ℚ
  | [] => 0
  | x :: xs => xs.foldl min x

/-- Python `max` over a list; every call site guards against emptiness. -/
def listMax : List ℚ → ℚ
  | [] => 0
  | x :: xs => xs.foldl max x

/-- Insertion step of the sort behind `statistics.median`. -/
def insertSorted (x : ℚ) : List ℚ → List ℚ
  | [] => [x]
  | y :: ys => if x ≤ y then x :: y :: ys else y :: insertSorted x ys

/-- Ascending sort (insertion sort) used to model `statistics.median`. -/
def sortList (l : List ℚ) : List ℚ := l.foldr insertSorted []

/-- Embedding of `statistics.median`: middle of the sorted list, or the average of the
two middle values for even length; call sites guard against emptiness. -/
def median (l : List ℚ) : ℚ :=
  let s := sortList l
  let n := s.length
  if n % 2 = 1 then s.getD (n / 2) 0
  else ((s.getD (n / 2 - 1) 0) + (s.getD (n / 2) 0)) / 2

/-- The sample variance underlying `statistics.stdev` (denominator
`n − 1`); `stdev` itself is its square root. -/
def sampleVariance (l : List ℚ) : ℚ :=
  let m := mean l
  (l.map (fun x => (x - m) ^ 2)).sum / ((l.length : ℚ) - 1)

/-- Embedding of `PriceIntelligence._calculate_volatility`: coefficient of variation in
percent, 0 for fewer than 2 points or zero mean.  `sq` is the square-root
interpretation applied to the sample variance (see the header). -/
def calculate_volatility (sq : ℚ → ℚ) (prices : List ℚ) : ℚ :=
  if prices.length < 2 then 0
  else
    let m := mean prices
    if m = 0 then 0
    else
      let stdev := sq (sampleVariance prices)
      (stdev / m) * 100

/-- The prices of a route's history falling in one season — the contents
of the `seasonal_data` bucket that `analyze_seasonal_patterns` builds for
that season, in history order. -/
def seasonPrices (history : List PricePoint) (season : Season) : List ℚ :=
  (history.filter (fun p => get_season p.date == season)).map (·.price)

/-- The `patterns` dictionary `analyze_seasonal_patterns` computes from a
history: a season is present exactly when its bucket has ≥ 3 prices. -/
def mkPatterns (sq : ℚ → ℚ) (history : List PricePoint) : Season → Option SeasonalPattern :=
  fun season =>
    let prices := seasonPrices history season
    if 3 ≤ prices.length then
      some { season := season
             average_price := mean prices
             min_price := listMin prices
             max_price := listMax prices
             price_volatility := calculate_volatility sq prices
             sample_count := prices.length }
    else none

/-- Embedding of `PriceIntelligence.analyze_seasonal_patterns`: returns `{}` (and
stores nothing) for an unknown route or fewer than 10 points; otherwise
computes the per-season patterns, caches them under the route and returns
them. -/
def analyze_seasonal_patterns (sq : ℚ → ℚ) (s : PIState) (route : String) :
    PIState × (Season → Option SeasonalPattern) :=
  match s.price_history route with
  | none => (s, fun _ => none)
  | some history =>
    if history.length < 10 then (s, fun _ => none)
    else
      let patterns := mkPatterns sq history
      ({ s with seasonal_patterns := Function.update s.seasonal_patterns route (some patterns) },
       patterns)

/-- Embedding of `PriceIntelligence.get_current_price`: the most recent price, `none`
for an unknown or empty route. -/
def get_current_price (s : PIState) (route : String) : Option ℚ :=
  (s.price_history route).bind (fun hist => hist.getLast?.map (·.price))

/-- Embedding of `PriceIntelligence.get_trend`.  The slices `history[-3:]`,
`history[-6:-3]` and `history[:-3]` become `drop`/`take` combinations; the
three divisions are Python divisions (`pydiv`), fallible on a zero
denominator exactly as in the source. -/
def get_trend (s : PIState) (route : String) : Except String String := do
  match s.price_history route with
  | none => pure "unknown"
  | some history =>
    if history.length < 2 then pure "unknown"
    else
      let recent := history.drop (history.length - 3)
      let older := if 6 ≤ history.length
                   then (history.drop (history.length - 6)).take 3
                   else history.take (history.length - 3)
      if older.isEmpty then pure "unknown"
      else
        let recent_avg ← pydiv ((recent.map (·.price)).sum) recent.length
        let older_avg ← pydiv ((older.map (·.price)).sum) older.length
        let ratio ← pydiv (recent_avg - older_avg) older_avg
        let diff_percent := ratio * 100
        if 5 < diff_percent then pure "rising"
        else if diff_percent < -5 then pure "falling"
        else pure "stable"

/-- Embedding of `PriceIntelligence.predict_price`: `none` below the 5-point minimum,
otherwise the trend-table prediction over the retained prices. -/
def predict_price (s : PIState) (route : String) : Except String (Option PricePrediction) := do
  match s.price_history route with
  | none => pure none
  | some history =>
    if history.length < min_history_for_prediction then pure none
    else
      let prices := history.map (·.price)
      let current_price := prices.getLast?.getD 0
      let avg_price ← pydiv prices.sum prices.length
      let min_price := listMin prices
      let max_price := listMax prices
      let trend ← get_trend s route
      if trend == "falling" then
        pure (some { current_price := current_price
                     predicted_low := current_price * (85/100)
                     predicted_high := max_price
                     recommendation := .WAIT
                     confidence := 75/100
                     reasoning := "Prices are trending downward. Consider waiting." })
      else if trend == "rising" then
        pure (some { current_price := current_price
                     predicted_low := current_price
                     predicted_high := max_price
                     recommendation := .BUY_NOW
                     confidence := 75/100
                     reasoning := "Prices are rising. Book now to secure current rate." })
      else if current_price < avg_price * (9/10) then
        pure (some { current_price := current_price
                     predicted_low := current_price
                     predicted_high := max_price
                     recommendation := .BUY_NOW
                     confidence := 65/100
                     reasoning := "Current price is below average - good time to buy!" })
      else if avg_price * (11/10) < current_price then
        pure (some { current_price := current_price
                     predicted_low := avg_price * (9/10)
                     predicted_high := max_price
                     recommendation := .WAIT
                     confidence := 65/100
                     reasoning := "Price is above average. Consider waiting." })
      else
        pure (some { current_price := current_price
                     predicted_low := min_price
                     predicted_high := max_price
                     recommendation := .NEUTRAL
                     confidence := 1/2
                     reasoning := "Price is close to average. No strong signal." })

/-- The reason field of `should_buy`; the f-string of the budget branch is
modelled as a constructor carrying the two interpolated prices. -/
inductive BuyReason
  | notEnoughData
  | belowTarget (current target : ℚ)
  | fromPrediction (reasoning : String)
deriving Repr, DecidableEq

/-- The dictionary `should_buy` returns. -/
structure BuyAdvice where
  should_buy : Option Bool
  reason : BuyReason
deriving Repr, DecidableEq

/-- Embedding of `PriceIntelligence.should_buy`: the explicit-budget check (guarded by
Python truthiness of `target_price`) runs before the trend-based
recommendation is consulted. -/
def should_buy (s : PIState) (route : String) (target_price : Option ℚ) :
    Except String BuyAdvice := do
  let prediction ← predict_price s route
  match prediction with
  | none => pure ⟨none, .notEnoughData⟩
  | some pred =>
    if ratTruthy target_price && decide (pred.current_price ≤ target_price.getD 0) then
      pure ⟨some true, .belowTarget pred.current_price (target_price.getD 0)⟩
    else if pred.recommendation == .BUY_NOW then
      pure ⟨some true, .fromPrediction pred.reasoning⟩
    else
      pure ⟨some false, .fromPrediction pred.reasoning⟩

/-- The reason field of `get_seasonal_recommendation`; the percentage
f-strings are modelled as constructors carrying the computed percentage
and the season (display rounding elided). -/
inductive SeasonalReason
  | notEnoughData
  | belowSeasonAvg (pctBelow : ℚ) (season : Season)
  | aboveSeasonAvg (pctAbove : ℚ) (season : Season)
  | nearSeasonAvg (season : Season)
deriving Repr, DecidableEq

/-- The dictionary `get_seasonal_recommendation` returns; `seasonal_avg`
and `volatility` are `none` when the not-enough-data dictionary omits the
keys. -/
structure SeasonalRec where
  recommendation : String
  reason : SeasonalReason
  seasonal_avg : Option ℚ
  volatility : Option ℚ
deriving Repr, DecidableEq

/-- Embedding of `PriceIntelligence.get_seasonal_recommendation`: lazily analyze when
the route has no cache entry, look up the travel date's season, then
compare the current price against the season average.  Comparing
`None` with a float raises `TypeError` in Python, and the percentage
computations divide by the seasonal average. -/
def get_seasonal_recommendation (sq : ℚ → ℚ) (s : PIState) (route : String)
    (travel_date : DateTime) : PIState × Except String SeasonalRec :=
  let s1 := if (s.seasonal_patterns route).isSome then s
            else (analyze_seasonal_patterns sq s route).1
  let patterns := (s1.seasonal_patterns route).getD (fun _ => none)
  let target_season := get_season travel_date
  match patterns target_season with
  | none => (s1, .ok ⟨"neutral", .notEnoughData, none, none⟩)
  | some pattern =>
    match get_current_price s1 route with
    | none => (s1, .error "TypeError")
    | some current_price =>
      let res : Except String SeasonalRec := do
        if current_price < pattern.average_price * (8/10) then
          let r ← pydiv current_price pattern.average_price
          pure ⟨"buy_now", .belowSeasonAvg ((1 - r) * 100) target_season,
                some pattern.average_price, some pattern.price_volatility⟩
        else if pattern.average_price * (12/10) < current_price then
          let r ← pydiv current_price pattern.average_price
          pure ⟨"wait", .aboveSeasonAvg ((r - 1) * 100) target_season,
                some pattern.average_price, some pattern.price_volatility⟩
        else
          pure ⟨"neutral", .nearSeasonAvg target_season,
                some pattern.average_price, some pattern.price_volatility⟩
      (s1, res)

/-- The dictionary `get_route_statistics` returns. -/
structure RouteStats where
  current_price : Option ℚ
  average_price : Option ℚ
  min_price : Option ℚ
  max_price : Option ℚ
  median_price : Option ℚ
  volatility : ℚ
  sample_count : Nat
  trend : String
  last_updated : Option DateTime
deriving Repr, DecidableEq

/-- Embedding of `PriceIntelligence.get_route_statistics`: `none` stands for the empty
dictionary returned for an unknown route. -/
def get_route_statistics (sq : ℚ → ℚ) (s : PIState) (route : String) :
    Except String (Option RouteStats) := do
  match s.price_history route with
  | none => pure none
  | some hist =>
    let prices := hist.map (·.price)
    let trend ← get_trend s route
    pure (some { current_price := prices.getLast?
                 average_price := if prices.isEmpty then none else some (mean prices)
                 min_price := if prices.isEmpty then none else some (listMin prices)
                 max_price := if prices.isEmpty then none else some (listMax prices)
                 median_price := if prices.isEmpty then none else some (median prices)
                 volatility := calculate_volatility sq prices
                 sample_count := prices.length
                 trend := trend
                 last_updated := hist.getLast?.map (·.date) })

/-! ## Concrete engine states used as test inputs -/

/-- A history built by two `add_price` calls at clock time 1000: first a
point supplied with the future timestamp 1400, then a point at 1000.
Both survive the pruning cutoff `1000 − 365`. -/
def c2state : PIState :=
  add_price (add_price PIState.init "r" 100 (some ⟨1400, 1⟩) ⟨1000, 1⟩)
    "r" 50 (some ⟨1000, 1⟩) ⟨1000, 1⟩

/-- Six price observations 10, 10, 10, 10, 10, 0 recorded for route `q`
at clock time 100. -/
def c6state : PIState :=
  ([10, 10, 10, 10, 10, 0] : List ℚ).foldl
    (fun s p => add_price s "q" p none ⟨100, 1⟩) PIState.init

/-- Six price observations of 100 recorded for route `q` at clock time
50. -/
def c5state : PIState :=
  ([100, 100, 100, 100, 100, 100] : List ℚ).foldl
    (fun s p => add_price s "q" p none ⟨50, 1⟩) PIState.init

/-- A cached seasonal pattern for Summer. -/
def c10pattern : SeasonalPattern :=
  { season := .SUMMER, average_price := 100, min_price := 80, max_price := 120,
    price_volatility := 5, sample_count := 4 }

/-- A seasonal-patterns dictionary holding only the Summer entry. -/
def c10pats : Season → Option SeasonalPattern :=
  fun se => if se = Season.SUMMER then some c10pattern else none

/-- An engine state whose route `r` has one (July) price point and a
populated seasonal-patterns cache entry. -/
def c10state : PIState :=
  { price_history := Function.update (fun _ => none) "r" (some [⟨⟨10, 7⟩, 110, "EUR"⟩]),
    alerts := fun _ => none,
    seasonal_patterns := Function.update (fun _ => none) "r" (some c10pats) }

/-! ## Helper lemmas about the matcher -/

/-- Unfolding lemma for `Except` bind on a success value. -/
@[simp] theorem exc_bind_ok {ε α β : Type} (a : α) (f : α → Except ε β) :
    (Except.ok a : Except ε α) >>= f = f a := rfl

/-- Unfolding lemma for `Except` pure. -/
@[simp] theorem exc_pure {ε α : Type} (a : α) :
    (pure a : Except ε α) = Except.ok a := rfl

/-- The price block never raises: the truthiness guard on `max_price`
keeps the divisor nonzero. -/
theorem pricePart_isOk (price : ℚ) (mp : Option ℚ) :
    ∃ q, pricePart price mp = .ok q := by
  match mp with
  | none => exact ⟨15, rfl⟩
  | some m =>
    by_cases hm : m = 0
    · exact ⟨15, by simp [pricePart, ratTruthy, hm]⟩
    · by_cases hle : price ≤ m
      · exact ⟨(1 - price / m * (1/2)) * 30, by simp [pricePart, ratTruthy, hm, pydiv, hle]⟩
      · by_cases hov : (price - m) / m < 2/10
        · exact ⟨15 * (1 - ((price - m) / m) / (2/10)),
            by simp [pricePart, ratTruthy, hm, pydiv, hle, hov]⟩
        · exact ⟨0, by simp [pricePart, ratTruthy, hm, pydiv, hle, hov]⟩

/-- Scoring never raises. -/
theorem calculate_match_score_isOk (deal : Deal) (sub : Subscription) :
    ∃ q, calculate_match_score deal sub = .ok q := by
  obtain ⟨q, hq⟩ := pricePart_isOk deal.price sub.max_price
  refine ⟨min (destPart deal.arrival_city sub.destination + q +
      datePart deal.departure_date sub.start_date sub.end_date +
      originPart deal.departure_city sub.origin) 100, ?_⟩
  simp [calculate_match_score, hq]

/-- The scoring loop never raises. -/
theorem matchLoop_isOk (deal : Deal) (l : List Subscription) :
    ∃ ms, matchLoop deal l = .ok ms := by
  induction l with
  | nil => exact ⟨[], rfl⟩
  | cons sub rest ih =>
    obtain ⟨q, hq⟩ := calculate_match_score_isOk deal sub
    obtain ⟨ms, hms⟩ := ih
    by_cases h : 50 ≤ q
    · exact ⟨⟨sub, q⟩ :: ms, by simp [matchLoop, hq, hms, h]⟩
    · exact ⟨ms, by simp [matchLoop, hq, hms, h]⟩

/-- A subscription that scores exactly 50 appears (with that score) in the
output of the scoring loop whenever it is in the input list. -/
theorem matchLoop_mem_of_score_fifty (deal : Deal) (sub : Subscription) :
    ∀ (l : List Subscription) (ms : List DealMatch), sub ∈ l →
      calculate_match_score deal sub = .ok 50 →
      matchLoop deal l = .ok ms →
      (⟨sub, (50 : ℚ)⟩ : DealMatch) ∈ ms := by
  intro l
  induction l with
  | nil =>
    intro ms hsub
    cases hsub
  | cons a rest ih =>
    intro ms hsub hscore hloop
    obtain ⟨q, hq⟩ := calculate_match_score_isOk deal a
    obtain ⟨ms', hms'⟩ := matchLoop_isOk deal rest
    rcases List.mem_cons.mp hsub with h | h
    · subst h
      rw [hq] at hscore
      injection hscore with hq50
      subst hq50
      simp only [matchLoop, hq, hms', exc_bind_ok, le_refl, if_pos, exc_pure] at hloop
      have : ms = ⟨sub, (50 : ℚ)⟩ :: ms' := by
        simpa using hloop.symm
      simp [this]
    · have hmem' : (⟨sub, (50 : ℚ)⟩ : DealMatch) ∈ ms' := ih ms' h hscore hms'
      simp only [matchLoop, hq, hms', exc_bind_ok, exc_pure] at hloop
      by_cases h50 : 50 ≤ q
      · rw [if_pos h50] at hloop
        have : ms = ⟨a, q⟩ :: ms' := by simpa using hloop.symm
        simp [this, hmem']
      · rw [if_neg h50] at hloop
        have : ms = ms' := by simpa using hloop.symm
        simp [this, hmem']

/-- A subscription with none of the four preference fields set scores
exactly `20 + 15 + 10 + 5 = 50` against any deal. -/
theorem score_of_no_preferences (deal : Deal) (sub : Subscription)
    (h1 : sub.destination = none) (h2 : sub.max_price = none)
    (h3 : sub.start_date = none) (h4 : sub.end_date = none)
    (h5 : sub.origin = none) :
    calculate_match_score deal sub = .ok 50 := by
  simp [calculate_match_score, destPart, pricePart, datePart, originPart,
        h1, h2, h3, h4, h5, strTruthy, ratTruthy]
  norm_num

/-! ## Claims about the matcher -/

/-- C1.  A subscription with no destination, no max price, no date bounds
and no origin scores exactly `20 + 15 + 10 + 5 = 50` against every deal,
and — because the match threshold is `score ≥ 50` — whenever it is active
and among the queried subscriptions, `match_deal_to_subscriptions`
produces a `Match` for it (with score 50) for any deal. -/
theorem C1_no_preference_scores_fifty_and_matches (deal : Deal)
    (subs : List Subscription) (sub : Subscription)
    (h1 : sub.destination = none) (h2 : sub.max_price = none)
    (h3 : sub.start_date = none) (h4 : sub.end_date = none)
    (h5 : sub.origin = none) (hact : sub.is_active = true)
    (hmem : sub ∈ subs) :
    calculate_match_score deal sub = .ok 50 ∧
    ∃ ms, match_deal_to_subscriptions deal subs = .ok ms ∧
      (⟨sub, (50 : ℚ)⟩ : DealMatch) ∈ ms := by
  have hscore := score_of_no_preferences deal sub h1 h2 h3 h4 h5
  refine ⟨hscore, ?_⟩
  obtain ⟨ms, hms⟩ := matchLoop_isOk deal (subs.filter (·.is_active))
  refine ⟨ms, hms, ?_⟩
  have hmemf : sub ∈ subs.filter (·.is_active) :=
    List.mem_filter.mpr ⟨hmem, by simp [hact]⟩
  exact matchLoop_mem_of_score_fifty deal sub _ ms hmemf hscore hms

/-- C1 witness: a concrete preference-free active subscription against a
concrete deal. -/
theorem C1_no_preference_scores_fifty_and_matches_witness :
    calculate_match_score ⟨some "Paris", some "Berlin", some "Apr 2026", 300⟩
        ⟨none, none, none, none, none, true⟩ = .ok 50 ∧
    ∃ ms, match_deal_to_subscriptions ⟨some "Paris", some "Berlin", some "Apr 2026", 300⟩
        [⟨none, none, none, none, none, true⟩] = .ok ms ∧
      (⟨⟨none, none, none, none, none, true⟩, (50 : ℚ)⟩ : DealMatch) ∈ ms :=
  C1_no_preference_scores_fifty_and_matches
    ⟨some "Paris", some "Berlin", some "Apr 2026", 300⟩
    [⟨none, none, none, none, none, true⟩]
    ⟨none, none, none, none, none, true⟩
    rfl rfl rfl rfl rfl rfl (List.mem_singleton.mpr rfl)

/-- C4.  The price component of the score: with a positive `max_price` it
is `(1 − 0.5·price/max)·30` for `price ≤ max`, `15·(1 − overage/0.2)` with
`overage = (price − max)/max` for `max < price < 1.2·max`, and `0` from
20 % over budget on; with no `max_price` it is a flat 15. -/
theorem C4_price_component (price m : ℚ) (hm : 0 < m) :
    (price ≤ m → pricePart price (some m) = .ok ((1 - (1/2) * (price / m)) * 30)) ∧
    (m < price → price < (12/10) * m →
      pricePart price (some m) = .ok (15 * (1 - ((price - m) / m) / (2/10)))) ∧
    ((12/10) * m ≤ price → pricePart price (some m) = .ok 0) ∧
    pricePart price none = .ok 15 := by
  have hm0 : m ≠ 0 := ne_of_gt hm
  refine ⟨?_, ?_, ?_, rfl⟩
  · intro hle
    simp [pricePart, ratTruthy, hm0, pydiv, hle]
    ring_nf
  · intro hlt hlt2
    have hle : ¬ price ≤ m := not_le.mpr hlt
    have hov : (price - m) / m < 2/10 := by
      rw [div_lt_iff₀ hm]
      linarith
    simp [pricePart, ratTruthy, hm0, pydiv, hle, hov]
  · intro hge
    have hlt : m < price := by nlinarith
    have hle : ¬ price ≤ m := not_le.mpr hlt
    have hov : ¬ (price - m) / m < 2/10 := by
      rw [not_lt, le_div_iff₀ hm]
      linarith
    simp [pricePart, ratTruthy, hm0, pydiv, hle, hov]

/-- C4 witness: the spec's worked examples — price 115 against max 100
gives 3.75, price 125 gives 0, price 500 against max 500 gives 15, and no
max price gives 15. -/
theorem C4_price_component_witness :
    pricePart 115 (some 100) = .ok (375/100) ∧
    pricePart 125 (some 100) = .ok 0 ∧
    pricePart 500 (some 500) = .ok 15 ∧
    pricePart 115 none = .ok 15 := by
  refine ⟨?_, ?_, ?_, (C4_price_component 115 100 (by norm_num)).2.2.2⟩
  · have h := (C4_price_component 115 100 (by norm_num)).2.1
      (by norm_num) (by norm_num)
    rw [h]
    norm_num
  · exact (C4_price_component 125 100 (by norm_num)).2.2.1 (by norm_num)
  · have h := (C4_price_component 500 500 (by norm_num)).1 (by norm_num)
    rw [h]
    norm_num

/-- C7.  Scoring a single subscription never raises: every deal and
subscription produce an `ok` score, the whole batch always produces an
`ok` match list, and each unset preference contributes its documented
flat credit (20, 15, 10, 5). -/
theorem C7_scoring_total_and_flat_credits :
    (∀ (deal : Deal) (sub : Subscription), ∃ q, calculate_match_score deal sub = .ok q) ∧
    (∀ (deal : Deal) (subs : List Subscription),
      ∃ ms, match_deal_to_subscriptions deal subs = .ok ms) ∧
    (∀ c : Option String, destPart c none = 20) ∧
    (∀ p : ℚ, pricePart p none = .ok 15) ∧
    (∀ d : Option String, datePart d none none = 10) ∧
    (∀ c : Option String, originPart c none = 5) := by
  refine ⟨calculate_match_score_isOk, ?_, fun _ => rfl, fun _ => rfl, fun _ => rfl, fun _ => rfl⟩
  intro deal subs
  exact matchLoop_isOk deal (subs.filter (·.is_active))

/-! ## Claims about the season classifier -/

/-- C8 counterexample.  The claim says the Off-Peak fallback is never
assigned, but June (month 6) matches none of the season tests and falls
through to Off-Peak. -/
theorem C8_counterexample_june_off_peak :
    get_season ⟨0, 6⟩ = Season.OFF_PEAK := rfl

/-- C8 amended.  The season function is total and deterministic on months
1–12: December and January are Holiday (so Winter receives only
February), July/August Summer, March–May Spring, September–November
Autumn — and June, matched by no bucket, falls through to the Off-Peak
fallback, the only month that does. -/
theorem C8_season_of_month (t : ℚ) :
    get_season ⟨t, 1⟩ = Season.HOLIDAY ∧
    get_season ⟨t, 2⟩ = Season.WINTER ∧
    get_season ⟨t, 3⟩ = Season.SPRING ∧
    get_season ⟨t, 4⟩ = Season.SPRING ∧
    get_season ⟨t, 5⟩ = Season.SPRING ∧
    get_season ⟨t, 6⟩ = Season.OFF_PEAK ∧
    get_season ⟨t, 7⟩ = Season.SUMMER ∧
    get_season ⟨t, 8⟩ = Season.SUMMER ∧
    get_season ⟨t, 9⟩ = Season.AUTUMN ∧
    get_season ⟨t, 10⟩ = Season.AUTUMN ∧
    get_season ⟨t, 11⟩ = Season.AUTUMN ∧
    get_season ⟨t, 12⟩ = Season.HOLIDAY :=
  ⟨rfl, rfl, rfl, rfl, rfl, rfl, rfl, rfl, rfl, rfl, rfl, rfl⟩

/-! ## Helper lemmas about the price-intelligence state -/

/-- The helper `_check_alerts` only touches the alerts dictionary. -/
theorem check_alerts_price_history (s : PIState) (r : String) (p : ℚ) :
    (check_alerts s r p).price_history = s.price_history := by
  unfold check_alerts
  split <;> rfl

/-- The helper `_check_alerts` only touches the alerts dictionary. -/
theorem check_alerts_seasonal (s : PIState) (r : String) (p : ℚ) :
    (check_alerts s r p).seasonal_patterns = s.seasonal_patterns := by
  unfold check_alerts
  split <;> rfl

/-- The history of the touched route after `add_price`: the old history
plus the new point, pruned at `now − 365`. -/
theorem add_price_history (s : PIState) (route : String) (price : ℚ)
    (date : Option DateTime) (now : DateTime) :
    (add_price s route price date now).price_history route =
      some ((((s.price_history route).getD []) ++
          [({ date := date.getD now, price := price } : PricePoint)]).filter
        (fun p => decide (now.t - 365 < p.date.t))) := by
  unfold add_price
  rw [check_alerts_price_history]
  simp [Function.update_same]

/-- The operation `add_price` never touches the seasonal-patterns cache. -/
theorem add_price_seasonal (s : PIState) (route : String) (price : ℚ)
    (date : Option DateTime) (now : DateTime) :
    (add_price s route price date now).seasonal_patterns = s.seasonal_patterns := by
  unfold add_price
  rw [check_alerts_seasonal]

/-- The alerts of a route after `add_price` on that route: each pending
alert whose target is reached flips, everything else is untouched. -/
theorem add_price_alerts_same_route (s : PIState) (route : String) (price : ℚ)
    (date : Option DateTime) (now : DateTime) (al : List PriceAlert)
    (h : s.alerts route = some al) :
    (add_price s route price date now).alerts route =
      some (al.map (fun a =>
        if !a.triggered && decide (price ≤ a.target_price) then
          { a with triggered := true }
        else a)) := by
  unfold add_price check_alerts
  simp only [h]
  simp [Function.update_same]

/-- The operation `add_price` on one route leaves every other route's alerts alone. -/
theorem add_price_alerts_other_route (s : PIState) (route r2 : String) (price : ℚ)
    (date : Option DateTime) (now : DateTime) (hr : r2 ≠ route) :
    (add_price s r2 price date now).alerts route = s.alerts route := by
  cases h2 : s.alerts r2 with
  | none => simp [add_price, check_alerts, h2]
  | some al2 =>
    simp [add_price, check_alerts, h2, Function.update_noteq (Ne.symm hr)]

/-! ## Claims about price-history pruning (C2) -/

/-- C2 counterexample.  After two `add_price` calls at clock time 1000 —
one with the future timestamp 1400, one with timestamp 1000 — the route
keeps a point 400 days older than the latest recorded time, and that
point's price shows up in `get_route_statistics` (as the minimum and the
current price): pruning is relative to the clock at the call, not to the
latest recorded time. -/
theorem C2_counterexample_stale_point_survives :
    ((c2state.price_history "r").getD []).map (fun p => p.date.t) = [1400, 1000] ∧
    (∃ p ∈ (c2state.price_history "r").getD [], ∃ q ∈ (c2state.price_history "r").getD [],
      p.date.t < q.date.t - 365) ∧
    (get_route_statistics id c2state "r").toOption =
      some (some ⟨some 50, some 75, some 50, some 100, some 75, 5000/3, 2, "unknown",
        some ⟨1000, 1⟩⟩) := by
  have hh : c2state.price_history "r" =
      some [⟨⟨1400, 1⟩, 100, "EUR"⟩, ⟨⟨1000, 1⟩, 50, "EUR"⟩] := by
    norm_num [c2state, add_price, check_alerts, PIState.init, Function.update]
  refine ⟨by simp [hh], ?_, ?_⟩
  · exact ⟨⟨⟨1000, 1⟩, 50, "EUR"⟩, by simp [hh], ⟨⟨1400, 1⟩, 100, "EUR"⟩, by simp [hh],
      by norm_num⟩
  · norm_num [get_route_statistics, get_trend, hh, mean, listMin, listMax, median,
      sortList, insertSorted, calculate_volatility, sampleVariance, pydiv, Except.toOption]

/-- C2 amended.  After every `add_price` call, the touched route's
retained history contains no point dated 365 days or more before the
clock time of the call; consequently no retained point is more than 365
days older than any retained point whose timestamp does not lie in the
future of that clock. -/
theorem C2_pruning_relative_to_call_time (s : PIState) (route : String) (price : ℚ)
    (date : Option DateTime) (now : DateTime) :
    ∀ p ∈ ((add_price s route price date now).price_history route).getD [],
      now.t - 365 < p.date.t ∧
      ∀ q ∈ ((add_price s route price date now).price_history route).getD [],
        q.date.t ≤ now.t → q.date.t - 365 < p.date.t := by
  intro p hp
  rw [add_price_history] at hp
  simp only [Option.getD_some, List.mem_filter, decide_eq_true_eq] at hp
  refine ⟨hp.2, ?_⟩
  intro q hq hqt
  have := hp.2
  linarith

/-- C2 amended witness: a single concrete `add_price` call at clock time
1000 retains the point dated 1000, which is newer than the cutoff 635. -/
theorem C2_pruning_relative_to_call_time_witness :
    (⟨⟨1000, 1⟩, 100, "EUR"⟩ : PricePoint) ∈
      ((add_price PIState.init "r" 100 none ⟨1000, 1⟩).price_history "r").getD [] ∧
    (1000 : ℚ) - 365 < (1000 : ℚ) := by
  have hw : (add_price PIState.init "r" 100 none ⟨1000, 1⟩).price_history "r" =
      some [⟨⟨1000, 1⟩, 100, "EUR"⟩] := by
    norm_num [add_price, check_alerts, PIState.init, Function.update]
  have hm : (⟨⟨1000, 1⟩, 100, "EUR"⟩ : PricePoint) ∈
      ((add_price PIState.init "r" 100 none ⟨1000, 1⟩).price_history "r").getD [] := by
    simp [hw]
  exact ⟨hm, (C2_pruning_relative_to_call_time PIState.init "r" 100 none ⟨1000, 1⟩ _ hm).1⟩

/-! ## Claims about alerts (C3, C9) -/

/-- C3.  One `add_price` step relates a route's alert list to its
predecessor pointwise: the list keeps its length (no alert is duplicated
or dropped), every alert keeps its route, target and creation time, and
its `triggered` flag afterwards is `triggered before ∨ (the call touched
this route ∧ price ≤ target)` — so a pending alert flips exactly when a
price at or below its target is recorded for its route, a triggered alert
never resets, and a later lower price changes nothing. -/
theorem C3_alert_flips_once (s : PIState) (route r2 : String) (price : ℚ)
    (date : Option DateTime) (now : DateTime) (al : List PriceAlert)
    (h : s.alerts route = some al) :
    ∃ al' : List PriceAlert, (add_price s r2 price date now).alerts route = some al' ∧
      List.Forall₂ (fun a a' : PriceAlert =>
        a'.route = a.route ∧ a'.target_price = a.target_price ∧
        a'.created_at = a.created_at ∧
        a'.triggered = (a.triggered || (decide (r2 = route) &&
          decide (price ≤ a.target_price)))) al al' := by
  by_cases hr : r2 = route
  · subst hr
    refine ⟨_, add_price_alerts_same_route s r2 price date now al h, ?_⟩
    rw [List.forall₂_map_right_iff]
    rw [List.forall₂_same]
    intro a _
    by_cases htr : a.triggered
    · simp [htr]
    · by_cases hle : price ≤ a.target_price
      · simp [htr, hle]
      · simp [htr, hle]
  · refine ⟨al, by rw [add_price_alerts_other_route s route r2 price date now hr, h], ?_⟩
    rw [List.forall₂_same]
    intro a _
    simp [hr]

/-- C3 witness: an alert at target 100; recording price 90 flips it, and
a later recording of the lower price 80 leaves the (already triggered)
alert unchanged — still a single alert. -/
theorem C3_alert_flips_once_witness :
    (∃ al' : List PriceAlert, (add_price (create_alert PIState.init "r" 100 ⟨0, 1⟩).1
        "r" 90 none ⟨10, 1⟩).alerts "r" = some al' ∧
      List.Forall₂ (fun a a' : PriceAlert =>
        a'.route = a.route ∧ a'.target_price = a.target_price ∧
        a'.created_at = a.created_at ∧
        a'.triggered = (a.triggered || (decide ("r" = "r") &&
          decide ((90 : ℚ) ≤ a.target_price)))) [⟨"r", 100, ⟨0, 1⟩, false⟩] al') ∧
    (∃ al' : List PriceAlert, (add_price (add_price (create_alert PIState.init "r" 100 ⟨0, 1⟩).1
        "r" 90 none ⟨10, 1⟩) "r" 80 none ⟨11, 1⟩).alerts "r" = some al' ∧
      List.Forall₂ (fun a a' : PriceAlert =>
        a'.route = a.route ∧ a'.target_price = a.target_price ∧
        a'.created_at = a.created_at ∧
        a'.triggered = (a.triggered || (decide ("r" = "r") &&
          decide ((80 : ℚ) ≤ a.target_price)))) [⟨"r", 100, ⟨0, 1⟩, true⟩] al') := by
  constructor
  · refine C3_alert_flips_once (create_alert PIState.init "r" 100 ⟨0, 1⟩).1
      "r" "r" 90 none ⟨10, 1⟩ [⟨"r", 100, ⟨0, 1⟩, false⟩] ?_
    norm_num [create_alert, PIState.init, Function.update]
  · refine C3_alert_flips_once (add_price (create_alert PIState.init "r" 100 ⟨0, 1⟩).1
      "r" 90 none ⟨10, 1⟩) "r" "r" 80 none ⟨11, 1⟩ [⟨"r", 100, ⟨0, 1⟩, true⟩] ?_
    norm_num [add_price, check_alerts, create_alert, PIState.init, Function.update]

/-- C9.  Alert evaluation uses the raw recorded price after pruning: a
pending alert whose target is reached flips even when the supplied
timestamp is at or beyond the 365-day cutoff, in which case no retained
point of the route carries that timestamp — the triggering point is
pruned within the same call. -/
theorem C9_pruned_point_still_triggers (s : PIState) (route : String) (price : ℚ)
    (date now : DateTime) (al : List PriceAlert)
    (h : s.alerts route = some al) :
    (∀ a ∈ al, a.triggered = false → price ≤ a.target_price →
      ({ a with triggered := true } : PriceAlert) ∈
        ((add_price s route price (some date) now).alerts route).getD []) ∧
    (date.t ≤ now.t - 365 →
      ∀ p ∈ ((add_price s route price (some date) now).price_history route).getD [],
        p.date.t ≠ date.t) := by
  constructor
  · intro a ha htr hle
    rw [add_price_alerts_same_route s route price (some date) now al h]
    simp only [Option.getD_some, List.mem_map]
    exact ⟨a, ha, by simp [htr, hle]⟩
  · intro hstale p hp heq
    rw [add_price_history] at hp
    simp only [Option.getD_some, List.mem_filter, decide_eq_true_eq] at hp
    rw [heq] at hp
    linarith [hp.2]

/-- C9 witness: a pending alert at target 100 on route `r`; recording
price 90 with the stale timestamp 0 at clock time 1000 triggers the alert
while the recorded point itself is pruned (the retained history holds no
point dated 0). -/
theorem C9_pruned_point_still_triggers_witness :
    (({ route := "r", target_price := 100, created_at := ⟨0, 1⟩, triggered := true } : PriceAlert) ∈
      ((add_price (create_alert PIState.init "r" 100 ⟨0, 1⟩).1
          "r" 90 (some ⟨0, 1⟩) ⟨1000, 1⟩).alerts "r").getD []) ∧
    (∀ p ∈ ((add_price (create_alert PIState.init "r" 100 ⟨0, 1⟩).1
        "r" 90 (some ⟨0, 1⟩) ⟨1000, 1⟩).price_history "r").getD [],
      p.date.t ≠ (0 : ℚ)) := by
  have h := C9_pruned_point_still_triggers (create_alert PIState.init "r" 100 ⟨0, 1⟩).1
    "r" 90 ⟨0, 1⟩ ⟨1000, 1⟩ [⟨"r", 100, ⟨0, 1⟩, false⟩]
    (by norm_num [create_alert, PIState.init, Function.update])
  exact ⟨h.1 ⟨"r", 100, ⟨0, 1⟩, false⟩ (by simp) rfl (by norm_num),
    h.2 (by norm_num)⟩

/-! ## Claims about the seasonal-patterns cache (C10) -/

/-- C10.  `add_price` never touches the seasonal-patterns cache, and once
a route has a cache entry, `get_seasonal_recommendation` neither mutates
the state nor recomputes: after any intervening `add_price` call its
seasonal average and volatility are exactly the cached pattern's fields
(and the no-data answer when the cached entry lacks the travel season). -/
theorem C10_add_price_preserves_seasonal_cache (sq : ℚ → ℚ) (s : PIState)
    (route r2 : String) (price : ℚ) (date : Option DateTime) (now : DateTime)
    (travel_date : DateTime) (pats : Season → Option SeasonalPattern)
    (hcache : s.seasonal_patterns route = some pats) :
    (add_price s r2 price date now).seasonal_patterns = s.seasonal_patterns ∧
    (get_seasonal_recommendation sq (add_price s r2 price date now) route travel_date).1 =
      add_price s r2 price date now ∧
    (pats (get_season travel_date) = none →
      (get_seasonal_recommendation sq (add_price s r2 price date now) route travel_date).2 =
        .ok ⟨"neutral", .notEnoughData, none, none⟩) ∧
    (∀ (pattern : SeasonalPattern) (cur : ℚ), pats (get_season travel_date) = some pattern →
      get_current_price (add_price s r2 price date now) route = some cur →
      pattern.average_price ≠ 0 →
      ∃ rec : SeasonalRec,
        (get_seasonal_recommendation sq (add_price s r2 price date now) route travel_date).2 =
          .ok rec ∧
        rec.seasonal_avg = some pattern.average_price ∧
        rec.volatility = some pattern.price_volatility) := by
  have hsp := add_price_seasonal s r2 price date now
  have hc' : (add_price s r2 price date now).seasonal_patterns route = some pats := by
    rw [hsp, hcache]
  refine ⟨hsp, ?_, ?_, ?_⟩
  · simp only [get_seasonal_recommendation, hc', Option.isSome_some, if_true,
      Option.getD_some]
    cases hpt : pats (get_season travel_date) with
    | none => rfl
    | some pattern =>
      cases hcur : get_current_price (add_price s r2 price date now) route <;>
        simp [hcur]
  · intro hpt
    simp [get_seasonal_recommendation, hc', hpt]
  · intro pattern cur hpt hcur havg
    simp only [get_seasonal_recommendation, hc', Option.isSome_some, if_true,
      Option.getD_some, hpt, hcur]
    by_cases h1 : cur < pattern.average_price * (8/10)
    · exact ⟨⟨"buy_now", .belowSeasonAvg ((1 - cur / pattern.average_price) * 100)
          (get_season travel_date), some pattern.average_price,
          some pattern.price_volatility⟩,
        by simp [h1, pydiv, havg], rfl, rfl⟩
    · by_cases h2 : pattern.average_price * (12/10) < cur
      · exact ⟨⟨"wait", .aboveSeasonAvg ((cur / pattern.average_price - 1) * 100)
            (get_season travel_date), some pattern.average_price,
            some pattern.price_volatility⟩,
          by simp [h1, h2, pydiv, havg], rfl, rfl⟩
      · exact ⟨⟨"neutral", .nearSeasonAvg (get_season travel_date),
            some pattern.average_price, some pattern.price_volatility⟩,
          by simp [h1, h2], rfl, rfl⟩

/-- C10 witness: a state whose route `r` has a cached Summer pattern
(average 100, volatility 5); after recording a price for another route,
the July recommendation still reports exactly the cached average and
volatility. -/
theorem C10_add_price_preserves_seasonal_cache_witness :
    (add_price c10state "r2" 50 none ⟨20, 3⟩).seasonal_patterns = c10state.seasonal_patterns ∧
    ∃ rec : SeasonalRec,
      (get_seasonal_recommendation id (add_price c10state "r2" 50 none ⟨20, 3⟩)
          "r" ⟨0, 7⟩).2 = .ok rec ∧
      rec.seasonal_avg = some 100 ∧ rec.volatility = some 5 := by
  have hcache : c10state.seasonal_patterns "r" = some c10pats := by
    simp [c10state, Function.update]
  have h := C10_add_price_preserves_seasonal_cache id c10state "r" "r2" 50 none
    ⟨20, 3⟩ ⟨0, 7⟩ c10pats hcache
  have hne1 : ("r" : String) ≠ "r2" := by decide
  have hne2 : ("r2" : String) ≠ "r" := by decide
  have hcur : get_current_price (add_price c10state "r2" 50 none ⟨20, 3⟩) "r" = some 110 := by
    norm_num [add_price, check_alerts, c10state, get_current_price, Function.update,
      hne1, hne2]
  obtain ⟨rec, h1, h2, h3⟩ := h.2.2.2 c10pattern 110 rfl hcur
    (by norm_num [c10pattern])
  exact ⟨h.1, rec, h1, by simp [h2, c10pattern], by simp [h3, c10pattern]⟩

/-! ## Helper lemmas for trend and prediction (C5, C6) -/

/-- Division `pydiv` succeeds on a nonzero divisor. -/
theorem pydiv_ok (a b : ℚ) (h : b ≠ 0) : pydiv a b = .ok (a / b) := by
  simp [pydiv, h]

/-- The summed prices of a nonempty list of all-positive price points are
positive. -/
theorem price_sum_pos (l : List PricePoint) (hne : l ≠ [])
    (hpos : ∀ p ∈ l, 0 < p.price) : 0 < (l.map (·.price)).sum := by
  refine List.sum_pos _ ?_ (by simp [hne])
  intro x hx
  obtain ⟨p, hp, rfl⟩ := List.mem_map.mp hx
  exact hpos p hp

/-- Case split on the final threshold comparison of `get_trend`. -/
theorem trend_cases (X : ℚ) :
    ∃ tr, ((if 5 < X then (Except.ok "rising" : Except String String)
        else if X < -5 then .ok "falling" else .ok "stable") = .ok tr) ∧
      (tr = "rising" ∨ tr = "falling" ∨ tr = "stable") := by
  by_cases h1 : 5 < X
  · exact ⟨"rising", by rw [if_pos h1], Or.inl rfl⟩
  · by_cases h2 : X < -5
    · exact ⟨"falling", by rw [if_neg h1, if_pos h2], Or.inr (Or.inl rfl)⟩
    · exact ⟨"stable", by rw [if_neg h1, if_neg h2], Or.inr (Or.inr rfl)⟩

/-- With at least 5 retained points, all of positive price, `get_trend`
raises nothing and never answers "unknown": both averaging windows are
nonempty and the older average is a positive divisor. -/
theorem get_trend_of_five (s : PIState) (route : String) (hist : List PricePoint)
    (hs : s.price_history route = some hist) (h5 : 5 ≤ hist.length)
    (hpos : ∀ p ∈ hist, 0 < p.price) :
    ∃ tr, get_trend s route = .ok tr ∧
      (tr = "rising" ∨ tr = "falling" ∨ tr = "stable") := by
  have h2 : ¬ hist.length < 2 := by omega
  have hrne : hist.drop (hist.length - 3) ≠ [] := by
    refine List.length_pos.mp ?_
    rw [List.length_drop]
    omega
  have hrpos : ∀ p ∈ hist.drop (hist.length - 3), 0 < p.price :=
    fun p hp => hpos p (List.mem_of_mem_drop hp)
  have hrsum := price_sum_pos _ hrne hrpos
  have hrlen : ((hist.drop (hist.length - 3)).length : ℚ) ≠ 0 := by
    rw [List.length_drop]
    exact Nat.cast_ne_zero.mpr (by omega)
  by_cases h6 : 6 ≤ hist.length
  · have hone : (hist.drop (hist.length - 6)).take 3 ≠ [] := by
      refine List.length_pos.mp ?_
      rw [List.length_take, List.length_drop]
      omega
    have hoe : ((hist.drop (hist.length - 6)).take 3).isEmpty = false := by
      simp [hone]
    have hopos : ∀ p ∈ (hist.drop (hist.length - 6)).take 3, 0 < p.price :=
      fun p hp => hpos p (List.mem_of_mem_drop (List.mem_of_mem_take hp))
    have hosum := price_sum_pos _ hone hopos
    have holen : ((((hist.drop (hist.length - 6)).take 3).length : ℚ)) ≠ 0 := by
      rw [List.length_take, List.length_drop]
      exact Nat.cast_ne_zero.mpr (by omega)
    have holenpos : (0 : ℚ) < (((hist.drop (hist.length - 6)).take 3).length : ℚ) :=
      Nat.cast_pos.mpr (List.length_pos.mpr hone)
    have hoavg : ((((hist.drop (hist.length - 6)).take 3).map (·.price)).sum /
        (((hist.drop (hist.length - 6)).take 3).length : ℚ)) ≠ 0 :=
      ne_of_gt (div_pos hosum holenpos)
    obtain ⟨tr, htr, hd⟩ := trend_cases
      ((((hist.drop (hist.length - 3)).map (·.price)).sum /
          ((hist.drop (hist.length - 3)).length : ℚ) -
        (((hist.drop (hist.length - 6)).take 3).map (·.price)).sum /
          (((hist.drop (hist.length - 6)).take 3).length : ℚ)) /
        ((((hist.drop (hist.length - 6)).take 3).map (·.price)).sum /
          (((hist.drop (hist.length - 6)).take 3).length : ℚ)) * 100)
    refine ⟨tr, ?_, hd⟩
    simp only [get_trend, hs, h2, if_false, h6, if_true, hoe, Bool.false_eq_true]
    rw [pydiv_ok _ _ hrlen]
    simp only [exc_bind_ok]
    rw [pydiv_ok _ _ holen]
    simp only [exc_bind_ok]
    rw [pydiv_ok _ _ hoavg]
    simp only [exc_bind_ok, exc_pure]
    exact htr
  · have hone : hist.take (hist.length - 3) ≠ [] := by
      refine List.length_pos.mp ?_
      rw [List.length_take]
      omega
    have hoe : (hist.take (hist.length - 3)).isEmpty = false := by
      simp [hone]
    have hopos : ∀ p ∈ hist.take (hist.length - 3), 0 < p.price :=
      fun p hp => hpos p (List.mem_of_mem_take hp)
    have hosum := price_sum_pos _ hone hopos
    have holen : (((hist.take (hist.length - 3)).length : ℚ)) ≠ 0 := by
      rw [List.length_take]
      exact Nat.cast_ne_zero.mpr (by omega)
    have holenpos : (0 : ℚ) < ((hist.take (hist.length - 3)).length : ℚ) :=
      Nat.cast_pos.mpr (List.length_pos.mpr hone)
    have hoavg : (((hist.take (hist.length - 3)).map (·.price)).sum /
        ((hist.take (hist.length - 3)).length : ℚ)) ≠ 0 :=
      ne_of_gt (div_pos hosum holenpos)
    obtain ⟨tr, htr, hd⟩ := trend_cases
      ((((hist.drop (hist.length - 3)).map (·.price)).sum /
          ((hist.drop (hist.length - 3)).length : ℚ) -
        ((hist.take (hist.length - 3)).map (·.price)).sum /
          ((hist.take (hist.length - 3)).length : ℚ)) /
        (((hist.take (hist.length - 3)).map (·.price)).sum /
          ((hist.take (hist.length - 3)).length : ℚ)) * 100)
    refine ⟨tr, ?_, hd⟩
    simp only [get_trend, hs, h2, if_false, h6, if_true, hoe, Bool.false_eq_true]
    rw [pydiv_ok _ _ hrlen]
    simp only [exc_bind_ok]
    rw [pydiv_ok _ _ holen]
    simp only [exc_bind_ok]
    rw [pydiv_ok _ _ hoavg]
    simp only [exc_bind_ok, exc_pure]
    exact htr

/-! ## Claims about `predict_price` (C5) -/

/-- C5.  `predict_price` returns `none` for fewer than 5 retained points;
otherwise (prices being positive, per the spec's input contract) it
returns a prediction whose `predicted_high` is the maximum of all
retained prices, and whose recommendation, predicted low and fixed
per-branch confidence follow the policy table: falling →
WAIT/current×0.85/0.75; rising → BUY_NOW/current/0.75; stable with
current < avg×0.9 → BUY_NOW/current/0.65; stable with current > avg×1.1 →
WAIT/avg×0.9/0.65; stable otherwise → NEUTRAL/min/0.5. -/
theorem C5_predict_price_policy_table (s : PIState) (route : String) :
    (((s.price_history route).getD []).length < 5 →
      predict_price s route = .ok none) ∧
    (∀ hist : List PricePoint, s.price_history route = some hist →
      5 ≤ hist.length → (∀ p ∈ hist, 0 < p.price) →
      ∃ tr pred, get_trend s route = .ok tr ∧
        predict_price s route = .ok (some pred) ∧
        tr ≠ "unknown" ∧ (tr = "falling" ∨ tr = "rising" ∨ tr = "stable") ∧
        pred.current_price = (hist.map (·.price)).getLast?.getD 0 ∧
        pred.predicted_high = listMax (hist.map (·.price)) ∧
        (tr = "falling" → pred.recommendation = .WAIT ∧
          pred.predicted_low = pred.current_price * (85/100) ∧
          pred.confidence = 75/100) ∧
        (tr = "rising" → pred.recommendation = .BUY_NOW ∧
          pred.predicted_low = pred.current_price ∧ pred.confidence = 75/100) ∧
        (tr = "stable" →
          (pred.current_price < mean (hist.map (·.price)) * (9/10) →
            pred.recommendation = .BUY_NOW ∧
            pred.predicted_low = pred.current_price ∧ pred.confidence = 65/100) ∧
          (mean (hist.map (·.price)) * (11/10) < pred.current_price →
            pred.recommendation = .WAIT ∧
            pred.predicted_low = mean (hist.map (·.price)) * (9/10) ∧
            pred.confidence = 65/100) ∧
          (¬ pred.current_price < mean (hist.map (·.price)) * (9/10) →
            ¬ mean (hist.map (·.price)) * (11/10) < pred.current_price →
            pred.recommendation = .NEUTRAL ∧
            pred.predicted_low = listMin (hist.map (·.price)) ∧
            pred.confidence = 1/2))) := by
  constructor
  · intro hlen
    cases hsr : s.price_history route with
    | none => simp [predict_price, hsr]
    | some hist =>
      rw [hsr] at hlen
      simp only [Option.getD_some] at hlen
      simp [predict_price, hsr, min_history_for_prediction, hlen]
  · intro hist hs h5 hpos
    obtain ⟨tr, htr, hd⟩ := get_trend_of_five s route hist hs h5 hpos
    have hlen5 : ¬ hist.length < min_history_for_prediction := by
      simp only [min_history_for_prediction]
      omega
    have hplen : ((hist.map (·.price)).length : ℚ) ≠ 0 := by
      rw [List.length_map]
      exact Nat.cast_ne_zero.mpr (by omega)
    rcases hd with h | h | h <;> subst h
    · -- trend = "rising"
      have e1 : (("rising" : String) == "falling") = false := by decide
      have e2 : (("rising" : String) == "rising") = true := by decide
      have hpred : predict_price s route = .ok (some
          ⟨(hist.map (·.price)).getLast?.getD 0,
           (hist.map (·.price)).getLast?.getD 0,
           listMax (hist.map (·.price)), .BUY_NOW, 75/100,
           "Prices are rising. Book now to secure current rate."⟩) := by
        simp only [predict_price, hs, hlen5, if_false]
        rw [pydiv_ok _ _ hplen]
        simp only [exc_bind_ok]
        rw [htr]
        simp only [exc_bind_ok, e1, e2, Bool.false_eq_true, if_false, if_true, exc_pure]
      refine ⟨"rising", _, htr, hpred, by decide, Or.inr (Or.inl rfl), rfl, rfl,
        fun hcon => absurd hcon (by decide), fun _ => ⟨rfl, rfl, rfl⟩,
        fun hcon => absurd hcon (by decide)⟩
    · -- trend = "falling"
      have e1 : (("falling" : String) == "falling") = true := by decide
      have hpred : predict_price s route = .ok (some
          ⟨(hist.map (·.price)).getLast?.getD 0,
           (hist.map (·.price)).getLast?.getD 0 * (85/100),
           listMax (hist.map (·.price)), .WAIT, 75/100,
           "Prices are trending downward. Consider waiting."⟩) := by
        simp only [predict_price, hs, hlen5, if_false]
        rw [pydiv_ok _ _ hplen]
        simp only [exc_bind_ok]
        rw [htr]
        simp only [exc_bind_ok, e1, if_true, exc_pure]
      refine ⟨"falling", _, htr, hpred, by decide, Or.inl rfl, rfl, rfl,
        fun _ => ⟨rfl, rfl, rfl⟩, fun hcon => absurd hcon (by decide),
        fun hcon => absurd hcon (by decide)⟩
    · -- trend = "stable"
      have e1 : (("stable" : String) == "falling") = false := by decide
      have e2 : (("stable" : String) == "rising") = false := by decide
      have hne : hist ≠ [] := by
        intro hc
        rw [hc] at h5
        simp at h5
      have havgpos : (0 : ℚ) <
          (hist.map (·.price)).sum / ((hist.map (·.price)).length : ℚ) := by
        refine div_pos (price_sum_pos hist hne hpos) ?_
        rw [List.length_map]
        exact Nat.cast_pos.mpr (by omega)
      by_cases ha : (hist.map (·.price)).getLast?.getD 0 <
          (hist.map (·.price)).sum / ((hist.map (·.price)).length : ℚ) * (9/10)
      · have hpred : predict_price s route = .ok (some
            ⟨(hist.map (·.price)).getLast?.getD 0,
             (hist.map (·.price)).getLast?.getD 0,
             listMax (hist.map (·.price)), .BUY_NOW, 65/100,
             "Current price is below average - good time to buy!"⟩) := by
          simp only [predict_price, hs, hlen5, if_false]
          rw [pydiv_ok _ _ hplen]
          simp only [exc_bind_ok]
          rw [htr]
          simp only [exc_bind_ok, e1, e2, Bool.false_eq_true, if_false, ha, if_true,
            exc_pure]
        refine ⟨"stable", _, htr, hpred, by decide, Or.inr (Or.inr rfl), rfl, rfl,
          fun hcon => absurd hcon (by decide), fun hcon => absurd hcon (by decide),
          fun _ => ⟨fun _ => ⟨rfl, rfl, rfl⟩, ?_, ?_⟩⟩
        · intro h'
          simp only [mean] at h'
          exfalso
          linarith
        · intro h1' _
          simp only [mean] at h1'
          exact absurd ha h1'
      · by_cases hb : (hist.map (·.price)).sum / ((hist.map (·.price)).length : ℚ) *
            (11/10) < (hist.map (·.price)).getLast?.getD 0
        · have hpred : predict_price s route = .ok (some
              ⟨(hist.map (·.price)).getLast?.getD 0,
               (hist.map (·.price)).sum / ((hist.map (·.price)).length : ℚ) * (9/10),
               listMax (hist.map (·.price)), .WAIT, 65/100,
               "Price is above average. Consider waiting."⟩) := by
            simp only [predict_price, hs, hlen5, if_false]
            rw [pydiv_ok _ _ hplen]
            simp only [exc_bind_ok]
            rw [htr]
            simp only [exc_bind_ok, e1, e2, Bool.false_eq_true, if_false, ha, hb,
              if_true, exc_pure]
          refine ⟨"stable", _, htr, hpred, by decide, Or.inr (Or.inr rfl), rfl, rfl,
            fun hcon => absurd hcon (by decide), fun hcon => absurd hcon (by decide),
            fun _ => ⟨?_, fun _ => ⟨rfl, rfl, rfl⟩, ?_⟩⟩
          · intro h'
            simp only [mean] at h'
            exact absurd h' ha
          · intro _ h2'
            simp only [mean] at h2'
            exact absurd hb h2'
        · have hpred : predict_price s route = .ok (some
              ⟨(hist.map (·.price)).getLast?.getD 0,
               listMin (hist.map (·.price)),
               listMax (hist.map (·.price)), .NEUTRAL, 1/2,
               "Price is close to average. No strong signal."⟩) := by
            simp only [predict_price, hs, hlen5, if_false]
            rw [pydiv_ok _ _ hplen]
            simp only [exc_bind_ok]
            rw [htr]
            simp only [exc_bind_ok, e1, e2, Bool.false_eq_true, if_false, ha, hb,
              exc_pure]
          refine ⟨"stable", _, htr, hpred, by decide, Or.inr (Or.inr rfl), rfl, rfl,
            fun hcon => absurd hcon (by decide), fun hcon => absurd hcon (by decide),
            fun _ => ⟨?_, ?_, fun _ _ => ⟨rfl, rfl, rfl⟩⟩⟩
          · intro h'
            simp only [mean] at h'
            exact absurd h' ha
          · intro h'
            simp only [mean] at h'
            exact absurd h' hb

/-- C5 witness: an empty route yields `none`; a route with six retained
points of price 100 yields a prediction with `predicted_high` the maximum
retained price. -/
theorem C5_predict_price_policy_table_witness :
    predict_price PIState.init "x" = .ok none ∧
    ∃ tr pred, get_trend c5state "q" = .ok tr ∧
      predict_price c5state "q" = .ok (some pred) ∧ tr ≠ "unknown" ∧
      pred.predicted_high = listMax (((c5state.price_history "q").getD []).map (·.price)) := by
  constructor
  · exact (C5_predict_price_policy_table PIState.init "x").1 (by norm_num [PIState.init])
  · have hh : c5state.price_history "q" = some
        [⟨⟨50, 1⟩, 100, "EUR"⟩, ⟨⟨50, 1⟩, 100, "EUR"⟩, ⟨⟨50, 1⟩, 100, "EUR"⟩,
         ⟨⟨50, 1⟩, 100, "EUR"⟩, ⟨⟨50, 1⟩, 100, "EUR"⟩, ⟨⟨50, 1⟩, 100, "EUR"⟩] := by
      norm_num [c5state, add_price, check_alerts, PIState.init, Function.update]
    obtain ⟨tr, pred, h1, h2, h3, _, _, h6, _⟩ :=
      (C5_predict_price_policy_table c5state "q").2
        [⟨⟨50, 1⟩, 100, "EUR"⟩, ⟨⟨50, 1⟩, 100, "EUR"⟩, ⟨⟨50, 1⟩, 100, "EUR"⟩,
         ⟨⟨50, 1⟩, 100, "EUR"⟩, ⟨⟨50, 1⟩, 100, "EUR"⟩, ⟨⟨50, 1⟩, 100, "EUR"⟩]
        hh (by norm_num) (by norm_num)
    exact ⟨tr, pred, h1, h2, h3, by rw [h6, hh]; simp only [Option.getD_some]⟩

/-! ## Claims about `should_buy` (C6) -/

/-- C6 counterexample.  With prices 10, 10, 10, 10, 10, 0 recorded, the
prediction exists and `current_price = 0 ≤ 0 = target_price`, yet
`should_buy` with target 0 answers `false` with the trend reasoning: a
zero target is falsy in Python and the budget check is skipped. -/
theorem C6_counterexample_zero_target :
    (∃ pred : PricePrediction, predict_price c6state "q" = .ok (some pred) ∧
      pred.current_price = 0 ∧ pred.current_price ≤ (0 : ℚ)) ∧
    should_buy c6state "q" (some 0) =
      .ok ⟨some false, .fromPrediction "Prices are trending downward. Consider waiting."⟩ := by
  have hh : c6state.price_history "q" = some
      [⟨⟨100, 1⟩, 10, "EUR"⟩, ⟨⟨100, 1⟩, 10, "EUR"⟩, ⟨⟨100, 1⟩, 10, "EUR"⟩,
       ⟨⟨100, 1⟩, 10, "EUR"⟩, ⟨⟨100, 1⟩, 10, "EUR"⟩, ⟨⟨100, 1⟩, 0, "EUR"⟩] := by
    norm_num [c6state, add_price, check_alerts, PIState.init, Function.update]
  have htr : get_trend c6state "q" = .ok "falling" := by
    norm_num [get_trend, hh, pydiv]
  have hp : predict_price c6state "q" = .ok (some
      ⟨0, 0 * (85/100), 10, .WAIT, 75/100,
       "Prices are trending downward. Consider waiting."⟩) := by
    simp only [predict_price, hh, min_history_for_prediction]
    norm_num [pydiv, htr, listMin, listMax]
  refine ⟨⟨_, hp, by norm_num, by norm_num⟩, ?_⟩
  have erec : (Recommendation.WAIT == Recommendation.BUY_NOW) = false := by decide
  simp [should_buy, hp, ratTruthy, erec]

/-- C6 amended.  For every given nonzero `target_price` (Python treats a
zero target as not given), when a prediction exists and
`current_price ≤ target_price`, `should_buy` answers `true` with the
reason citing both numbers, before and regardless of the trend-based
recommendation; with no prediction it answers `none`. -/
theorem C6_budget_check_decided_first :
    (∀ (s : PIState) (route : String) (target : ℚ) (pred : PricePrediction),
      predict_price s route = .ok (some pred) → target ≠ 0 →
      pred.current_price ≤ target →
      should_buy s route (some target) =
        .ok ⟨some true, .belowTarget pred.current_price target⟩) ∧
    (∀ (s : PIState) (route : String) (tp : Option ℚ),
      predict_price s route = .ok none →
      should_buy s route tp = .ok ⟨none, .notEnoughData⟩) := by
  constructor
  · intro s route target pred hp ht hle
    simp [should_buy, hp, ratTruthy, ht, hle]
  · intro s route tp hp
    simp [should_buy, hp]

/-- C6 amended witness: same six-point state; against the nonzero target
120 the budget check fires (current 0 ≤ 120) and wins over the falling
trend's WAIT recommendation; and a route with no data answers `none`. -/
theorem C6_budget_check_decided_first_witness :
    should_buy c6state "q" (some 120) =
      .ok ⟨some true, .belowTarget 0 120⟩ ∧
    should_buy PIState.init "x" none = .ok ⟨none, .notEnoughData⟩ := by
  have hh : c6state.price_history "q" = some
      [⟨⟨100, 1⟩, 10, "EUR"⟩, ⟨⟨100, 1⟩, 10, "EUR"⟩, ⟨⟨100, 1⟩, 10, "EUR"⟩,
       ⟨⟨100, 1⟩, 10, "EUR"⟩, ⟨⟨100, 1⟩, 10, "EUR"⟩, ⟨⟨100, 1⟩, 0, "EUR"⟩] := by
    norm_num [c6state, add_price, check_alerts, PIState.init, Function.update]
  have htr : get_trend c6state "q" = .ok "falling" := by
    norm_num [get_trend, hh, pydiv]
  have hp : predict_price c6state "q" = .ok (some
      ⟨0, 0 * (85/100), 10, .WAIT, 75/100,
       "Prices are trending downward. Consider waiting."⟩) := by
    simp only [predict_price, hh, min_history_for_prediction]
    norm_num [pydiv, htr, listMin, listMax]
  constructor
  · exact C6_budget_check_decided_first.1 c6state "q" 120
      ⟨0, 0 * (85/100), 10, .WAIT, 75/100,
       "Prices are trending downward. Consider waiting."⟩
      hp (by norm_num) (by norm_num)
  · exact C6_budget_check_decided_first.2 PIState.init "x" none
      (by simp [predict_price, PIState.init])

end SkyPulse
